import Mathlib

/-!
Shallow embedding of the multiphase-flow simulator's pressure-traverse core:
the Beggs-and-Brill correlation (`src/flow/beggs_and_brill.py`), the oil and
water PVT correlations (`src/oil.py`, `src/water.py`), the mixture update
(`src/flow/mixture.py`, `src/helpers.py`) and the traverse integrator
(`src/flow/tpr.py`).  Machine floats are modelled as real numbers (rationals
for the purely arithmetic integrator loop); Python code that can raise
`ZeroDivisionError` or `KeyError` is modelled with `Option`.
-/

/-! ### helpers.py -/

noncomputable def density_to_specific_gravity (density : ℝ) : ℝ := density / 62.4

noncomputable def specific_gravity_from_api (api_gravity : ℝ) : ℝ :=
  141.5 / (api_gravity + 131.5)

/-- `free_gas_liquid_ratio` from `helpers.py`: zero at or above bubble point,
otherwise the produced GLR minus the dissolved parts. -/
noncomputable def free_gas_liquid_ratio (pressure bubble_point rso rsw water_cut glrp : ℝ) : ℝ :=
  if pressure ≥ bubble_point then 0
  else glrp - rso * (1 - water_cut) - rsw * water_cut

/-- `no_slip_fraction` from `helpers.py`: a bare division, which raises
`ZeroDivisionError` when the total velocity is zero. -/
noncomputable def no_slip_fraction (fluid_velocity total_velocity : ℝ) : Option ℝ :=
  if total_velocity = 0 then none else some (fluid_velocity / total_velocity)

noncomputable def estimate_fluid_property (first second fraction_of_second : ℝ) : ℝ :=
  first * (1 - fraction_of_second) + second * fraction_of_second

/-! ### flowpattern.py -/

inductive FlowPattern where
  | distributed
  | intermittent
  | transition
  | segregated
  | downward
deriving DecidableEq, Repr

/-! ### flow/beggs_and_brill.py -/

/-- `HORZ_LIQUID_HOLDUP_CONSTANTS`: keys are segregated, intermittent and
distributed only; looking up any other pattern raises `KeyError` (`none`). -/
def HORZ_LIQUID_HOLDUP_CONSTANTS : FlowPattern → Option (ℝ × ℝ × ℝ)
  | FlowPattern.segregated => some (0.980, 0.4846, 0.0868)
  | FlowPattern.intermittent => some (0.845, 0.5351, 0.0173)
  | FlowPattern.distributed => some (1.065, 0.5824, 0.0609)
  | _ => none

/-- `LIQUID_HOLDUP_CONSTANTS`: transition has no entry. -/
def LIQUID_HOLDUP_CONSTANTS : FlowPattern → Option (ℝ × ℝ × ℝ × ℝ)
  | FlowPattern.segregated => some (0.011, -3.7680, 3.5390, -1.6140)
  | FlowPattern.intermittent => some (2.960, 0.3050, -0.4473, 0.0978)
  | FlowPattern.distributed => some (1.0, 1.0, 1.0, 1.0)
  | FlowPattern.downward => some (4.700, -0.3692, 0.1244, -0.5056)
  | FlowPattern.transition => none

noncomputable def calc_froude_number (mixture_velocity tubing_diameter : ℝ) : ℝ :=
  mixture_velocity ^ 2 / (32.174 * tubing_diameter / 12)

/-- `_calc_transition_froude_numbers`: the tuple `(Fr1, Fr2, Fr3, Fr4)`. -/
noncomputable def calc_transition_froude_numbers (lam : ℝ) : ℝ × ℝ × ℝ × ℝ :=
  (316.0 * lam ^ (0.302 : ℝ),
   0.0009252 * lam ^ (-2.4684 : ℝ),
   0.1 * lam ^ (-1.4516 : ℝ),
   0.5 * lam ^ (-6.738 : ℝ))

/-- `_calc_flow_pattern`: first-match-wins chain over the four boundaries. -/
noncomputable def calc_flow_pattern (froude lam : ℝ) : FlowPattern :=
  let t := calc_transition_froude_numbers lam
  if froude ≥ t.1 ∨ froude ≥ t.2.2.2 then FlowPattern.distributed
  else if froude > t.2.2.1 then FlowPattern.intermittent
  else if froude > t.2.1 then FlowPattern.transition
  else FlowPattern.segregated

/-- `_calc_horz_liquid_holdup`: `max(a·λ^b / Fr^c, λ)` with the per-pattern
constants; `none` models the `KeyError` on a pattern without constants. -/
noncomputable def calc_horz_liquid_holdup (pattern : FlowPattern) (froude lam : ℝ) : Option ℝ :=
  (HORZ_LIQUID_HOLDUP_CONSTANTS pattern).map fun k =>
    max (k.1 * lam ^ k.2.1 / froude ^ k.2.2) lam

noncomputable def calc_liquid_velocity_number (liquid_velocity liquid_density surface_tension : ℝ) : ℝ :=
  1.938 * liquid_velocity * (liquid_density / surface_tension) ^ ((1 : ℝ) / 4)

/-- The `c_parameter` computed from a `(d, e, f, g)` constant tuple. -/
noncomputable def cParamOf (k : ℝ × ℝ × ℝ × ℝ) (froude lam nlv : ℝ) : ℝ :=
  max 0 ((1 - lam) * Real.log (k.1 * lam ^ k.2.1 * nlv ^ k.2.2.1 * froude ^ k.2.2.2))

/-- The `c_parameter` after the distributed override (set to 0). -/
noncomputable def cParamFinal (pattern : FlowPattern) (froude lam nlv : ℝ) : Option ℝ :=
  (LIQUID_HOLDUP_CONSTANTS pattern).map fun k =>
    if pattern = FlowPattern.distributed then 0 else cParamOf k froude lam nlv

/-- The `phi_parameter` built from a `c_parameter` and the inclination. -/
noncomputable def phiOf (c incl : ℝ) : ℝ :=
  1 + c * (Real.sin (1.8 * (incl * Real.pi / 180)) -
    0.333 * (Real.sin (1.8 * (incl * Real.pi / 180))) ^ 3)

/-- The Payne correction factor: `0.924 if inclination > 0 else 0.685`. -/
noncomputable def payneFactor (incl : ℝ) : ℝ := if 0 < incl then 0.924 else 0.685

/-- The final clamp `max(min_value, min(max_value, x))` with
`max_value = λ` downhill else 1, and `min_value = λ` uphill else 0. -/
noncomputable def clampHoldup (incl lam x : ℝ) : ℝ :=
  max (if 0 ≤ incl then lam else 0) (min (if incl < 0 then lam else 1) x)

/-- The non-transition branch of `_calc_liquid_holdup_with_incl`. -/
noncomputable def liquid_holdup_base (pattern : FlowPattern) (froude lam nlv incl : ℝ) : Option ℝ :=
  (calc_horz_liquid_holdup pattern froude lam).bind fun hz =>
  (cParamFinal pattern froude lam nlv).map fun cp =>
    clampHoldup incl lam (payneFactor incl * hz * phiOf cp incl)

/-- `_calc_liquid_holdup_with_incl`: transition blends the segregated and
intermittent corrected holdups with weight `(Fr3 − Fr)/(Fr3 − Fr2)` and clamps
again; every other pattern goes through the base branch. -/
noncomputable def calc_liquid_holdup_with_incl (pattern : FlowPattern)
    (froude lam nlv incl : ℝ) : Option ℝ :=
  match pattern with
  | FlowPattern.transition =>
      let t := calc_transition_froude_numbers lam
      (liquid_holdup_base FlowPattern.segregated froude lam nlv incl).bind fun hs =>
      (liquid_holdup_base FlowPattern.intermittent froude lam nlv incl).map fun hi =>
        let a := (t.2.2.1 - froude) / (t.2.2.1 - t.2.1)
        clampHoldup incl lam (a * hs + (1 - a) * hi)
  | p => liquid_holdup_base p froude lam nlv incl

noncomputable def calc_grav_pressure_gradient (mixture_specific_gravity incl : ℝ) : ℝ :=
  -0.433 * mixture_specific_gravity * Real.sin (incl * Real.pi / 180)

noncomputable def calc_reynolds (density velocity diameter viscosity : ℝ) : ℝ :=
  124 * density * |velocity| * diameter / viscosity

noncomputable def calc_moody_friction_factor (reynolds rugosity : ℝ) : ℝ :=
  let a := (2.457 * Real.log (1 / ((7 / reynolds) ^ (0.9 : ℝ) + 0.27 * rugosity))) ^ 16
  let b := (37530 / reynolds) ^ 16
  8 * ((8 / reynolds) ^ 12 + 1 / (a + b) ^ ((3 : ℝ) / 2)) ^ ((1 : ℝ) / 12)

/-- Denominator of the two-phase friction correction exponent `S`. -/
noncomputable def frictionDenom (y : ℝ) : ℝ :=
  -0.0523 + 3.182 * Real.log y - 0.8725 * (Real.log y) ^ 2 + 0.01853 * (Real.log y) ^ 4

/-- `_calc_friction_factor`: `term_s` starts at 0 and is only assigned in the
`y < 1.0 or y > 1.2` branch; the other branch computes `log(2.2y − 1.2)` and
discards it. -/
noncomputable def calc_friction_factor (lam holdup moody : ℝ) : ℝ :=
  let y := lam / holdup ^ 2
  let s := if y < 1 ∨ 1.2 < y then Real.log y / frictionDenom y else 0
  moody * Real.exp s

noncomputable def calc_fric_pressure_gradient (friction sg velocity diameter : ℝ) : ℝ :=
  let q := (Real.pi * (diameter / 12) ^ 2 * velocity / 4) * 86400 / 5.614583;
  -1.1471e-5 * friction * sg * q ^ 2 / diameter ^ 5

/-! ### oil.py -/

/-- Standing's correlation body for `Oil.calc_gas_solubility`, before the
bubble-point clamp. -/
noncomputable def oil_gas_solubility_raw (api gas_sg pressure temperature : ℝ) : ℝ :=
  gas_sg * (((pressure + 14.7) / 18.2 + 1.4) *
    (10 : ℝ) ^ (0.0125 * api - 0.00091 * temperature)) ^ (1.2048 : ℝ)

/-- `Oil.calc_gas_solubility`: evaluates the correlation at the bubble point
whenever `pressure > bubble_point`. -/
noncomputable def oil_calc_gas_solubility (api gas_sg pressure bubble_point temperature : ℝ) : ℝ :=
  oil_gas_solubility_raw api gas_sg
    (if pressure > bubble_point then bubble_point else pressure) temperature

/-- Numerator of the Vasquez-Beggs oil compressibility. -/
noncomputable def oil_comp_numerator (api gas_sg temperature bubble_point : ℝ) : ℝ :=
  -1433 + 5 * oil_calc_gas_solubility api gas_sg bubble_point bubble_point temperature +
    17.2 * temperature - 1180 * gas_sg + 12.61 * api

/-- Value returned by `Oil.calc_compressibility` when the precondition holds. -/
noncomputable def oil_compressibility_val (api gas_sg temperature bubble_point pressure : ℝ) : ℝ :=
  oil_comp_numerator api gas_sg temperature bubble_point / ((pressure + 14.7) * 10 ^ 5)

/-- `Oil.calc_compressibility`: raises (`none`) iff `pressure < bubble_point`. -/
noncomputable def oil_calc_compressibility (api gas_sg pressure bubble_point temperature : ℝ) :
    Option ℝ :=
  if pressure < bubble_point then none
  else some (oil_compressibility_val api gas_sg temperature bubble_point pressure)

/-- The saturated part of `Oil.calc_formation_volume_factor` (Standing). -/
noncomputable def oil_fvf_saturated (api gas_sg temperature rso : ℝ) : ℝ :=
  0.9759 + 12e-5 * (rso * Real.sqrt (gas_sg / specific_gravity_from_api api) +
    1.25 * temperature) ^ (1.2 : ℝ)

/-- `Oil.calc_formation_volume_factor`: above bubble point the saturated
result is multiplied by `exp(c·(Pb − P))`. -/
noncomputable def oil_calc_formation_volume_factor
    (api gas_sg pressure bubble_point temperature rso c : ℝ) : ℝ :=
  let r := oil_fvf_saturated api gas_sg temperature rso
  if pressure > bubble_point then r * Real.exp (c * (bubble_point - pressure)) else r

/-- The composition performed by `Oil.update_conditions` for
`pressure ≥ bubble_point`: the clamped solubility and the computed
compressibility are fed into the formation-volume-factor correlation. -/
noncomputable def oil_fvf_composed (api gas_sg temperature bubble_point pressure : ℝ) : ℝ :=
  oil_calc_formation_volume_factor api gas_sg pressure bubble_point temperature
    (oil_calc_gas_solubility api gas_sg pressure bubble_point temperature)
    (oil_compressibility_val api gas_sg temperature bubble_point pressure)

/-! ### water.py -/

noncomputable def water_sol_term_a (t : ℝ) : ℝ :=
  8.15839 - 6.12265e-2 * t + 1.91663e-4 * t ^ 2 - 2.1654e-7 * t ^ 3

noncomputable def water_sol_term_b (t : ℝ) : ℝ :=
  1.01021e-2 - 7.44241e-5 * t + 3.05553e-7 * t ^ 2 - 2.94883e-10 * t ^ 3

noncomputable def water_sol_term_c (t : ℝ) : ℝ :=
  (-9.02505 + 0.130237 * t - 8.53425e-4 * t ^ 2 + 2.34122e-6 * t ^ 3 -
    2.37049e-9 * t ^ 4) * 1e-7

/-- Culberson-Maketta correlation body for `Water._calc_gas_solubility`,
before the bubble-point clamp. -/
noncomputable def water_gas_solubility_raw (pressure temperature : ℝ) : ℝ :=
  water_sol_term_a temperature + water_sol_term_b temperature * (pressure + 14.7) +
    water_sol_term_c temperature * (pressure + 14.7) ^ 2

/-- `Water._calc_gas_solubility`: clamped at the bubble point. -/
noncomputable def water_calc_gas_solubility (bubble_point pressure temperature : ℝ) : ℝ :=
  water_gas_solubility_raw
    (if pressure > bubble_point then bubble_point else pressure) temperature

/-- Value returned by `Water._calc_compressibility` when the precondition holds. -/
noncomputable def water_compressibility_val (bubble_point pressure temperature : ℝ) : ℝ :=
  ((3.8546 - 1.34e-4 * (pressure + 14.7)) +
   (-0.01052 + 4.77e-7 * (pressure + 14.7)) * temperature +
   (3.9267e-5 - 8.8e-10 * (pressure + 14.7)) * temperature ^ 2) *
    (1 + 8.9e-3 * water_calc_gas_solubility bubble_point bubble_point temperature) / 1e6

/-- `Water._calc_compressibility`: raises (`none`) iff `pressure < bubble_point`. -/
noncomputable def water_calc_compressibility (bubble_point pressure temperature : ℝ) :
    Option ℝ :=
  if pressure < bubble_point then none
  else some (water_compressibility_val bubble_point pressure temperature)

/-! ### flow/mixture.py

`Mixture.update_conditions` refreshes the three phase snapshots and derives
the no-slip mixture state.  The refreshed phase properties (formation volume
factors, solubilities, densities, viscosities, surface tensions) enter the
embedding as parameters; the derived arithmetic below is the source's. -/

structure MixtureState where
  liquid_velocity : ℝ
  mixture_velocity : ℝ
  no_slip_liquid_fraction : ℝ
  water_fraction : ℝ
  liquid_density : ℝ
  liquid_surface_tension : ℝ
  liquid_viscosity : ℝ
  mixture_viscosity_no_slip : ℝ
  mixture_density_no_slip : ℝ
  mixture_specific_grav_no_slip : ℝ

/-- `Mixture.in_situ_flow_rate`. -/
noncomputable def in_situ_flow_rate (prod_flow_rate fvf fraction : ℝ) : ℝ :=
  fraction * prod_flow_rate * fvf * 0.000064984

/-- `Mixture.superficial_velocity`: divides by the cross-section area, which
raises `ZeroDivisionError` for a zero diameter. -/
noncomputable def superficial_velocity (qr diameter : ℝ) : Option ℝ :=
  if diameter = 0 then none
  else some (4 * qr / (Real.pi * (diameter / 12) ^ 2))

/-- The derived-state part of `Mixture.update_conditions`. -/
noncomputable def mixture_update_conditions
    (water_cut glrp oil_fvf water_fvf gas_fvf rso rsw : ℝ)
    (oil_density water_density oil_surf water_surf oil_visc water_visc : ℝ)
    (gas_density gas_visc : ℝ)
    (pressure bubble_point diameter flow_rate : ℝ) : Option MixtureState :=
  let fglr := free_gas_liquid_ratio pressure bubble_point rso rsw water_cut glrp
  (superficial_velocity (in_situ_flow_rate flow_rate gas_fvf fglr) diameter).bind fun gv =>
  (superficial_velocity (in_situ_flow_rate flow_rate oil_fvf (1 - water_cut)) diameter).bind fun ov =>
  (superficial_velocity (in_situ_flow_rate flow_rate water_fvf water_cut) diameter).bind fun wv =>
  let lv := ov + wv
  let mv := gv + lv
  (no_slip_fraction lv mv).bind fun nslf =>
  (no_slip_fraction wv lv).map fun wf =>
    let liquid_density := estimate_fluid_property oil_density water_density wf
    let liquid_surf := estimate_fluid_property oil_surf water_surf wf
    let liquid_visc := estimate_fluid_property oil_visc water_visc wf
    let mix_visc := estimate_fluid_property liquid_visc gas_visc (1 - nslf)
    let mix_density := estimate_fluid_property liquid_density gas_density (1 - nslf)
    { liquid_velocity := lv
      mixture_velocity := mv
      no_slip_liquid_fraction := nslf
      water_fraction := wf
      liquid_density := liquid_density
      liquid_surface_tension := liquid_surf
      liquid_viscosity := liquid_visc
      mixture_viscosity_no_slip := mix_visc
      mixture_density_no_slip := mix_density
      mixture_specific_grav_no_slip := mix_density / 62.4 }

/-! ### flow/tpr.py

The traverse loop of `TPR.simulate`.  The whole correlation chain evaluated at
each step collapses to the local total gradient, passed in as a function of
the current pressure (and, for a batch, of the flow rate).  The loop's own
arithmetic is exact over ℚ, faithful to the source; the unguarded
`delta_p / abs(dp_dz)` is modelled by `none` when the gradient is zero, and
`List.mapM` reproduces the batch loop in which an exception aborts every
sample.  A fuel parameter bounds the while loop. -/

structure TravState where
  depth : ℚ
  pressure : ℚ
  lastDepth : ℚ
  lastPressure : ℚ
  deltaP : ℚ
  lastLimit : ℚ
  limit : ℚ
deriving DecidableEq, Repr

/-- The `pressure >= limit` reset: `delta_p = limit/10` and the
(last_limit, limit) pair is rotated to (limit, 10·last_limit). -/
def scheduleReset (s : TravState) : TravState :=
  { s with deltaP := s.limit / 10, limit := s.lastLimit * 10, lastLimit := s.limit }

/-- One unguarded advance of depth and pressure. -/
def advanceState (dpdz : ℚ → ℚ) (s : TravState) : TravState :=
  { s with depth := s.depth + s.deltaP / |dpdz s.pressure|,
           pressure := s.pressure + s.deltaP,
           lastDepth := s.depth,
           lastPressure := s.pressure }

/-- One iteration of the while-loop body: fails on a zero gradient, then
applies the step-size reset when the advanced pressure crosses the limit. -/
def traverseStep (dpdz : ℚ → ℚ) (s : TravState) : Option TravState :=
  if dpdz s.pressure = 0 then none
  else
    let s' := advanceState dpdz s
    some (if s'.pressure ≥ s.limit then scheduleReset s' else s')

/-- The while loop followed by the final linear interpolation. -/
def traverseLoop (dpdz : ℚ → ℚ) (length : ℚ) : ℕ → TravState → Option ℚ
  | 0, _ => none
  | fuel + 1, s =>
      if s.depth ≥ length then
        some (s.lastPressure +
          (length - s.lastDepth) / (s.depth - s.lastDepth) * (s.pressure - s.lastPressure))
      else (traverseStep dpdz s).bind (traverseLoop dpdz length fuel)

/-- Initial loop state of one flow-rate sample: depth 0, wellhead pressure,
`delta_p = 0.5`, `last_limit = 5`, `limit = 10`. -/
def initTravState (well_head_pressure : ℚ) : TravState :=
  { depth := 0, pressure := well_head_pressure, lastDepth := 0, lastPressure := 0,
    deltaP := 1/2, lastLimit := 5, limit := 10 }

/-- The traverse of a single flow-rate sample. -/
def tprTraverse (dpdz : ℚ → ℚ) (length whp : ℚ) (fuel : ℕ) : Option ℚ :=
  traverseLoop dpdz length fuel (initTravState whp)

/-- The batch loop of `TPR.simulate`: one traverse per flow rate; an
exception in any sample aborts the whole computation. -/
def tprSimulate (dpdz : ℚ → ℚ → ℚ) (flow_rates : List ℚ) (length whp : ℚ)
    (fuel : ℕ) : Option (List ℚ) :=
  flow_rates.mapM fun r => tprTraverse (dpdz r) length whp fuel

/-- Gradient family of a batch in which exactly the sample with flow rate 1
hits a stagnant column (`dp_dz = 0`) and every other sample has a healthy
unit gradient. -/
def degenerateBatchGradient : ℚ → ℚ → ℚ := fun r _ => if r = 1 then 0 else 1

/-! ### Spec-side definitions used for refinement comparisons -/

/-- The classifier exactly as §4.3 of the spec words it: boundaries
`Fr1 = 316·λ^0.302`, `Fr2 = 0.0009252·λ^−2.4684`, `Fr3 = 0.1·λ^−1.4516`,
`Fr4 = 0.5·λ^−6.738`; distributed if `Fr ≥ Fr1` or `Fr ≥ Fr4`, else
intermittent if `Fr > Fr3`, else transition if `Fr > Fr2`, else segregated. -/
noncomputable def specFlowPattern (froude lam : ℝ) : FlowPattern :=
  let fr1 := 316.0 * lam ^ (0.302 : ℝ)
  let fr2 := 0.0009252 * lam ^ (-2.4684 : ℝ)
  let fr3 := 0.1 * lam ^ (-1.4516 : ℝ)
  let fr4 := 0.5 * lam ^ (-6.738 : ℝ)
  if froude ≥ fr1 ∨ froude ≥ fr4 then FlowPattern.distributed
  else if froude > fr3 then FlowPattern.intermittent
  else if froude > fr2 then FlowPattern.transition
  else FlowPattern.segregated

/-! ### Theorems -/

/-- Claim C4: for every Froude number and no-slip liquid fraction in (0, 1],
the classifier agrees with the spec's first-match-wins chain (distributed if
`Fr ≥ Fr1` or `Fr ≥ Fr4`, else intermittent if `Fr > Fr3`, else transition if
`Fr > Fr2`, else segregated) and never returns the downward pattern. -/
theorem flow_pattern_matches_spec_never_downward (froude lam : ℝ)
    (h0 : 0 < lam) (h1 : lam ≤ 1) :
    calc_flow_pattern froude lam = specFlowPattern froude lam ∧
    calc_flow_pattern froude lam ≠ FlowPattern.downward := by
  constructor
  · rfl
  · simp only [calc_flow_pattern]
    split_ifs <;> simp

/-- Witness for C4 at the spec's worked point `λ = 0.394882`, `Fr = 4.293`. -/
theorem flow_pattern_matches_spec_never_downward_witness :
    calc_flow_pattern 4.293 0.394882 ≠ FlowPattern.downward :=
  (flow_pattern_matches_spec_never_downward 4.293 0.394882
    (by norm_num) (by norm_num)).2

/-- Claim C5: for segregated, intermittent and distributed patterns with
`Fr > 0` and `λ ∈ (0, 1]`, the horizontal liquid holdup is
`max(a·λ^b / Fr^c, λ)` with the per-pattern constants, and any value the
function returns is at least the no-slip fraction `λ`. -/
theorem horz_holdup_constants_and_floor (froude lam : ℝ)
    (hfr : 0 < froude) (h0 : 0 < lam) (h1 : lam ≤ 1) :
    calc_horz_liquid_holdup FlowPattern.segregated froude lam =
      some (max (0.980 * lam ^ (0.4846 : ℝ) / froude ^ (0.0868 : ℝ)) lam) ∧
    calc_horz_liquid_holdup FlowPattern.intermittent froude lam =
      some (max (0.845 * lam ^ (0.5351 : ℝ) / froude ^ (0.0173 : ℝ)) lam) ∧
    calc_horz_liquid_holdup FlowPattern.distributed froude lam =
      some (max (1.065 * lam ^ (0.5824 : ℝ) / froude ^ (0.0609 : ℝ)) lam) ∧
    ∀ p h, calc_horz_liquid_holdup p froude lam = some h → lam ≤ h := by
  refine ⟨rfl, rfl, rfl, ?_⟩
  intro p h hp
  cases p <;> simp [calc_horz_liquid_holdup, HORZ_LIQUID_HOLDUP_CONSTANTS] at hp <;>
    exact hp ▸ le_max_right _ lam

/-- Witness for C5 at `Fr = 1`, `λ = 1` on the segregated pattern. -/
theorem horz_holdup_constants_and_floor_witness :
    (1 : ℝ) ≤ max (0.980 * (1 : ℝ) ^ (0.4846 : ℝ) / (1 : ℝ) ^ (0.0868 : ℝ)) 1 := by
  have h := horz_holdup_constants_and_floor 1 1 (by norm_num) (by norm_num) (by norm_num)
  exact h.2.2.2 FlowPattern.segregated _ h.1

/-- Claim C7: gas solubility in oil and in water is evaluated at the bubble
point for every pressure above it (a flat line above Pb), and at the pressure
itself at or below the bubble point. -/
theorem gas_solubility_clamped_at_bubble_point
    (api gas_sg pressure bubble_point temperature : ℝ) :
    (bubble_point < pressure →
      oil_calc_gas_solubility api gas_sg pressure bubble_point temperature =
        oil_calc_gas_solubility api gas_sg bubble_point bubble_point temperature ∧
      water_calc_gas_solubility bubble_point pressure temperature =
        water_calc_gas_solubility bubble_point bubble_point temperature) ∧
    (pressure ≤ bubble_point →
      oil_calc_gas_solubility api gas_sg pressure bubble_point temperature =
        oil_gas_solubility_raw api gas_sg pressure temperature ∧
      water_calc_gas_solubility bubble_point pressure temperature =
        water_gas_solubility_raw pressure temperature) := by
  constructor
  · intro h
    constructor
    · unfold oil_calc_gas_solubility
      rw [if_pos h, if_neg (lt_irrefl bubble_point)]
    · unfold water_calc_gas_solubility
      rw [if_pos h, if_neg (lt_irrefl bubble_point)]
  · intro h
    constructor
    · unfold oil_calc_gas_solubility
      rw [if_neg (not_lt.mpr h)]
    · unfold water_calc_gas_solubility
      rw [if_neg (not_lt.mpr h)]

/-- Witness for C7: clamped above Pb, raw correlation below Pb. -/
theorem gas_solubility_clamped_at_bubble_point_witness :
    oil_calc_gas_solubility 25 0.65 100 80 175 =
      oil_calc_gas_solubility 25 0.65 80 80 175 ∧
    oil_calc_gas_solubility 25 0.65 50 80 175 =
      oil_gas_solubility_raw 25 0.65 50 175 :=
  ⟨((gas_solubility_clamped_at_bubble_point 25 0.65 100 80 175).1 (by norm_num)).1,
   ((gas_solubility_clamped_at_bubble_point 25 0.65 50 80 175).2 (by norm_num)).1⟩

/-- Claim C8: oil and water compressibility raise the invalid-precondition
error exactly when the pressure is strictly below the bubble point, and
return the correlation value for every pressure at or above it. -/
theorem compressibility_error_iff_below_bubble_point
    (api gas_sg pressure bubble_point temperature : ℝ) :
    (oil_calc_compressibility api gas_sg pressure bubble_point temperature = none ↔
      pressure < bubble_point) ∧
    (bubble_point ≤ pressure →
      oil_calc_compressibility api gas_sg pressure bubble_point temperature =
        some (oil_compressibility_val api gas_sg temperature bubble_point pressure)) ∧
    (water_calc_compressibility bubble_point pressure temperature = none ↔
      pressure < bubble_point) ∧
    (bubble_point ≤ pressure →
      water_calc_compressibility bubble_point pressure temperature =
        some (water_compressibility_val bubble_point pressure temperature)) := by
  refine ⟨⟨fun h => ?_, fun h => ?_⟩, fun h => ?_, ⟨fun h => ?_, fun h => ?_⟩, fun h => ?_⟩
  · by_contra hc
    unfold oil_calc_compressibility at h
    rw [if_neg hc] at h
    exact Option.noConfusion h
  · unfold oil_calc_compressibility
    rw [if_pos h]
  · unfold oil_calc_compressibility
    rw [if_neg (not_lt.mpr h)]
  · by_contra hc
    unfold water_calc_compressibility at h
    rw [if_neg hc] at h
    exact Option.noConfusion h
  · unfold water_calc_compressibility
    rw [if_pos h]
  · unfold water_calc_compressibility
    rw [if_neg (not_lt.mpr h)]

/-- Witness for C8: an error below Pb, a value at and above Pb. -/
theorem compressibility_error_iff_below_bubble_point_witness :
    water_calc_compressibility 80 50 175 = none ∧
    oil_calc_compressibility 25 0.65 80 80 175 =
      some (oil_compressibility_val 25 0.65 175 80 80) :=
  ⟨((compressibility_error_iff_below_bubble_point 25 0.65 50 80 175).2.2.1).mpr
      (by norm_num),
   ((compressibility_error_iff_below_bubble_point 25 0.65 80 80 175).2.1) le_rfl⟩

/-- Claim C2 (amended): for `y = λ/holdup²` in `[1, 1.2]` the two-phase
friction factor is the Moody factor unchanged (`term_s` keeps its prior value
0); for `y < 1` or `y > 1.2` it is `f_moody · exp(ln y / D(y))` with
`D(y) = −0.0523 + 3.182 ln y − 0.8725 ln²y + 0.01853 ln⁴y`.  (The original
claim's assertion that `D` is nonzero throughout that branch is refuted by
`friction_denom_has_zero_in_branch`.) -/
theorem friction_factor_branches (lam holdup moody : ℝ) :
    (1 ≤ lam / holdup ^ 2 ∧ lam / holdup ^ 2 ≤ 1.2 →
      calc_friction_factor lam holdup moody = moody) ∧
    (lam / holdup ^ 2 < 1 ∨ 1.2 < lam / holdup ^ 2 →
      calc_friction_factor lam holdup moody =
        moody * Real.exp (Real.log (lam / holdup ^ 2) /
          frictionDenom (lam / holdup ^ 2))) := by
  constructor
  · rintro ⟨h1, h2⟩
    simp only [calc_friction_factor]
    rw [if_neg (by push_neg; exact ⟨h1, h2⟩)]
    rw [Real.exp_zero, mul_one]
  · intro h
    simp only [calc_friction_factor]
    rw [if_pos h]

/-- Witness for C2's amended theorem: one input per branch. -/
theorem friction_factor_branches_witness :
    calc_friction_factor 1 1 2 = 2 ∧
    calc_friction_factor (1/2) 1 3 =
      3 * Real.exp (Real.log ((1:ℝ)/2 / 1 ^ 2) / frictionDenom ((1:ℝ)/2 / 1 ^ 2)) :=
  ⟨(friction_factor_branches 1 1 2).1 (by norm_num),
   (friction_factor_branches (1/2) 1 3).2 (Or.inl (by norm_num))⟩

/-- Counterexample for C2: the denominator of the friction-correction
exponent has a zero inside the active branch `y < 1` (between `e⁻⁹` and
`e⁻⁸`), so the claimed "denominator is nonzero, no division by zero ever
occurs" is false. -/
theorem friction_denom_has_zero_in_branch :
    ∃ y : ℝ, 0 < y ∧ y < 1 ∧ frictionDenom y = 0 := by
  have hpoly : ∀ t : ℝ, frictionDenom (Real.exp t) =
      0.01853 * t ^ 4 - 0.8725 * t ^ 2 + 3.182 * t - 0.0523 := by
    intro t
    unfold frictionDenom
    rw [Real.log_exp]
    ring
  have hcont : ContinuousOn
      (fun t : ℝ => 0.01853 * t ^ 4 - 0.8725 * t ^ 2 + 3.182 * t - 0.0523)
      (Set.Icc (-9) (-8)) := by
    apply Continuous.continuousOn
    continuity
  have hmem : (0 : ℝ) ∈ Set.Icc
      ((fun t : ℝ => 0.01853 * t ^ 4 - 0.8725 * t ^ 2 + 3.182 * t - 0.0523) (-8))
      ((fun t : ℝ => 0.01853 * t ^ 4 - 0.8725 * t ^ 2 + 3.182 * t - 0.0523) (-9)) := by
    constructor <;> norm_num
  obtain ⟨t0, ht0, hf⟩ :=
    intermediate_value_Icc' (by norm_num : (-9 : ℝ) ≤ -8) hcont hmem
  refine ⟨Real.exp t0, Real.exp_pos t0, ?_, ?_⟩
  · have h8 : t0 ≤ -8 := ht0.2
    have : Real.exp t0 < Real.exp 0 := Real.exp_lt_exp.mpr (by linarith)
    simpa [Real.exp_zero] using this
  · rw [hpoly t0]
    exact hf

/-- Two consecutive step-size resets multiply both limits by 10 and leave
`delta_p` at the old `last_limit`. -/
lemma scheduleReset_two (s : TravState) :
    scheduleReset (scheduleReset s) =
      { s with deltaP := s.lastLimit, lastLimit := 10 * s.lastLimit,
               limit := 10 * s.limit } := by
  cases s
  simp only [scheduleReset]
  rw [TravState.mk.injEq]
  refine ⟨rfl, rfl, rfl, rfl, ?_, ?_, ?_⟩ <;> ring

/-- Closed form of the rolling limit pair after an even number of resets. -/
lemma schedule_limits (whp : ℚ) (k : ℕ) :
    (scheduleReset^[2*k] (initTravState whp)).lastLimit = 5 * 10 ^ k ∧
    (scheduleReset^[2*k] (initTravState whp)).limit = 10 ^ (k+1) := by
  induction k with
  | zero => constructor <;> norm_num [initTravState]
  | succ n ih =>
    have h2 : 2*(n+1) = 2*n + 1 + 1 := by ring
    obtain ⟨ha, hb⟩ := ih
    rw [h2, Function.iterate_succ_apply', Function.iterate_succ_apply',
        scheduleReset_two]
    constructor
    · simp only [ha]
      ring
    · simp only [hb]
      ring

/-- Claim C3: each traverse starts with `delta_p = 0.5` and the rolling pair
`(last_limit, limit) = (5, 10)`; a step whose advanced pressure reaches the
current limit resets `delta_p` to `limit/10` and rotates the pair to
`(limit, 10·last_limit)`; consequently the successive limits are
10, 50, 100, 500, 1000, ... (`10^(k+1)` and `5·10^(k+1)` alternating) and the
`delta_p` value set at the n-th crossing is one tenth of the n-th limit
(1, 5, 10, 50, 100, ...). -/
theorem step_size_schedule (whp : ℚ) :
    (initTravState whp).deltaP = 1/2 ∧
    (initTravState whp).lastLimit = 5 ∧
    (initTravState whp).limit = 10 ∧
    (∀ dpdz s, dpdz s.pressure ≠ 0 → (advanceState dpdz s).pressure ≥ s.limit →
      traverseStep dpdz s = some (scheduleReset (advanceState dpdz s))) ∧
    (∀ s : TravState, (scheduleReset s).deltaP = s.limit / 10 ∧
      (scheduleReset s).lastLimit = s.limit ∧
      (scheduleReset s).limit = s.lastLimit * 10) ∧
    (∀ k : ℕ, (scheduleReset^[2*k] (initTravState whp)).limit = 10 ^ (k+1) ∧
      (scheduleReset^[2*k+1] (initTravState whp)).limit = 5 * 10 ^ (k+1)) ∧
    (∀ n : ℕ, (scheduleReset^[n+1] (initTravState whp)).deltaP =
      (scheduleReset^[n] (initTravState whp)).limit / 10) := by
  refine ⟨rfl, rfl, rfl, ?_, ?_, ?_, ?_⟩
  · intro dpdz s hg hcross
    simp only [traverseStep]
    rw [if_neg hg, if_pos hcross]
  · intro s
    exact ⟨rfl, rfl, rfl⟩
  · intro k
    obtain ⟨ha, hb⟩ := schedule_limits whp k
    refine ⟨hb, ?_⟩
    rw [Function.iterate_succ_apply']
    show (scheduleReset _).limit = 5 * 10 ^ (k+1)
    simp only [scheduleReset, ha]
    ring
  · intro n
    rw [Function.iterate_succ_apply']
    rfl

/-- Witness for C3: a concrete crossing step (pressure 9.6 advances to 10.1,
reaching the limit 10) and concrete closed-form instances. -/
theorem step_size_schedule_witness :
    traverseStep (fun _ => 1) ⟨0, 9.6, 0, 0, 1/2, 5, 10⟩ =
      some (scheduleReset (advanceState (fun _ => 1) ⟨0, 9.6, 0, 0, 1/2, 5, 10⟩)) ∧
    (scheduleReset^[2] (initTravState 0)).limit = 100 := by
  constructor
  · exact (step_size_schedule 0).2.2.2.1 (fun _ => 1) ⟨0, 9.6, 0, 0, 1/2, 5, 10⟩
      (by norm_num) (by norm_num [advanceState])
  · have h := ((step_size_schedule 0).2.2.2.2.2.1 1).1
    norm_num at h
    exact h

/-- Claim C1 (evaluated at the failing input): in the batch with flow rates
[1, 2] where only the first sample hits a stagnant column (`dp_dz = 0`), the
unguarded division aborts the ENTIRE batch (`TPR.simulate` returns nothing),
even though the second sample alone would have produced a result.  This
refutes the claimed per-sample degenerate-traverse error containment. -/
theorem degenerate_traverse_aborts_whole_batch :
    tprSimulate degenerateBatchGradient [1, 2] 1 0 5 = none ∧
    tprTraverse (degenerateBatchGradient 2) 1 0 5 = some 1 := by
  constructor
  · decide
  · norm_num [tprTraverse, traverseLoop, traverseStep, advanceState, initTravState,
      scheduleReset, degenerateBatchGradient]

/-- The final clamp keeps the holdup between `λ` and 1 uphill and between 0
and `λ` downhill. -/
lemma clampHoldup_bounds (incl lam x : ℝ) (h0 : 0 ≤ lam) (h1 : lam ≤ 1) :
    (0 ≤ incl → lam ≤ clampHoldup incl lam x ∧ clampHoldup incl lam x ≤ 1) ∧
    (incl < 0 → 0 ≤ clampHoldup incl lam x ∧ clampHoldup incl lam x ≤ lam) := by
  unfold clampHoldup
  constructor
  · intro h
    rw [if_pos h, if_neg (not_lt.mpr h)]
    exact ⟨le_max_left _ _, max_le h1 (min_le_left _ _)⟩
  · intro h
    rw [if_neg (not_le.mpr h), if_pos h]
    exact ⟨le_max_left _ _, max_le h0 (min_le_left _ _)⟩

/-- Claim C6: for the three base patterns the inclination-corrected holdup is
the clamp of `ψ · H_L(0) · φ` with the Payne factor `ψ = 0.924` uphill and
`0.685` otherwise; and every returned holdup (transition blend included) lies
between `λ` and 1 for inclination ≥ 0 and between 0 and `λ` for negative
inclination. -/
theorem liquid_holdup_incl_clamp_and_bounds (froude lam nlv incl : ℝ)
    (h0 : 0 < lam) (h1 : lam ≤ 1) :
    (∀ p, p = FlowPattern.segregated ∨ p = FlowPattern.intermittent ∨
        p = FlowPattern.distributed →
      ∃ hz cp, calc_horz_liquid_holdup p froude lam = some hz ∧
        cParamFinal p froude lam nlv = some cp ∧
        calc_liquid_holdup_with_incl p froude lam nlv incl =
          some (clampHoldup incl lam (payneFactor incl * hz * phiOf cp incl))) ∧
    payneFactor incl = (if 0 < incl then (0.924 : ℝ) else 0.685) ∧
    (∀ p r, calc_liquid_holdup_with_incl p froude lam nlv incl = some r →
      (0 ≤ incl → lam ≤ r ∧ r ≤ 1) ∧ (incl < 0 → 0 ≤ r ∧ r ≤ lam)) := by
  refine ⟨?_, rfl, ?_⟩
  · rintro p (rfl | rfl | rfl) <;> exact ⟨_, _, rfl, rfl, rfl⟩
  · intro p r hr
    cases p <;>
      simp only [calc_liquid_holdup_with_incl, liquid_holdup_base,
        calc_horz_liquid_holdup, cParamFinal, HORZ_LIQUID_HOLDUP_CONSTANTS,
        LIQUID_HOLDUP_CONSTANTS, Option.map_some', Option.map_none',
        Option.some_bind, Option.none_bind, Option.some.injEq,
        reduceCtorEq] at hr
    case transition => exact hr ▸ clampHoldup_bounds incl lam _ h0.le h1
    case segregated => exact hr ▸ clampHoldup_bounds incl lam _ h0.le h1
    case intermittent => exact hr ▸ clampHoldup_bounds incl lam _ h0.le h1
    case distributed => exact hr ▸ clampHoldup_bounds incl lam _ h0.le h1

/-- Witness for C6 at a horizontal tubing (`incl = 0`, `Fr = λ = Nlv = 1`). -/
theorem liquid_holdup_incl_clamp_and_bounds_witness :
    payneFactor 0 = (if (0 : ℝ) < 0 then (0.924 : ℝ) else 0.685) ∧
    ∃ hz cp, calc_horz_liquid_holdup FlowPattern.segregated 1 1 = some hz ∧
      cParamFinal FlowPattern.segregated 1 1 1 = some cp ∧
      calc_liquid_holdup_with_incl FlowPattern.segregated 1 1 1 0 =
        some (clampHoldup 0 1 (payneFactor 0 * hz * phiOf cp 0)) := by
  have h := liquid_holdup_incl_clamp_and_bounds 1 1 1 0 (by norm_num) (by norm_num)
  exact ⟨h.2.1, h.1 FlowPattern.segregated (Or.inl rfl)⟩

/-- At or above the bubble point, the clamped solubility is the bubble-point
solubility. -/
lemma oil_sol_at_or_above_bp (api gas_sg p pb t : ℝ) (h : pb ≤ p) :
    oil_calc_gas_solubility api gas_sg p pb t =
      oil_calc_gas_solubility api gas_sg pb pb t := by
  unfold oil_calc_gas_solubility
  by_cases hc : pb < p
  · rw [if_pos hc, if_neg (lt_irrefl pb)]
  · rw [le_antisymm (not_lt.mp hc) h]

/-- The Standing solubility correlation is nonnegative for a nonnegative gas
gravity and pressure. -/
lemma oil_sol_nonneg (api gas_sg p t : ℝ) (hg : 0 ≤ gas_sg) (hp : 0 ≤ p) :
    0 ≤ oil_gas_solubility_raw api gas_sg p t := by
  unfold oil_gas_solubility_raw
  apply mul_nonneg hg
  apply Real.rpow_nonneg
  have h1 : 0 ≤ (p + 14.7) / 18.2 + 1.4 := by positivity
  have h2 : (0:ℝ) < (10 : ℝ) ^ (0.0125 * api - 0.00091 * t) :=
    Real.rpow_pos_of_pos (by norm_num) _
  exact mul_nonneg h1 h2.le

/-- The clamped solubility at the bubble point itself is nonnegative. -/
lemma oil_sol_bp_nonneg (api gas_sg pb t : ℝ) (hg : 0 ≤ gas_sg) (hpb : 0 ≤ pb) :
    0 ≤ oil_calc_gas_solubility api gas_sg pb pb t := by
  unfold oil_calc_gas_solubility
  rw [if_neg (lt_irrefl pb)]
  exact oil_sol_nonneg api gas_sg pb t hg hpb

/-- The saturated Standing FVF is positive whenever the solubility argument
and temperature are nonnegative. -/
lemma oil_fvf_saturated_pos (api gas_sg t rso : ℝ) (hr : 0 ≤ rso) (ht : 0 ≤ t) :
    0 < oil_fvf_saturated api gas_sg t rso := by
  unfold oil_fvf_saturated
  have hX : 0 ≤ rso * Real.sqrt (gas_sg / specific_gravity_from_api api) + 1.25 * t :=
    add_nonneg (mul_nonneg hr (Real.sqrt_nonneg _)) (by linarith)
  have h2 := Real.rpow_nonneg hX (1.2 : ℝ)
  nlinarith

/-- The `update_conditions` composition of the oil FVF at or above the bubble
point: saturated value at Pb times `exp(N·(Pb − P)/((P+14.7)·10⁵))`. -/
lemma oil_fvf_composed_eq (api gas_sg t pb p : ℝ) (h : pb ≤ p) :
    oil_fvf_composed api gas_sg t pb p =
      oil_fvf_saturated api gas_sg t (oil_calc_gas_solubility api gas_sg pb pb t) *
        Real.exp (oil_comp_numerator api gas_sg t pb * (pb - p) / ((p + 14.7) * 10 ^ 5)) := by
  simp only [oil_fvf_composed, oil_calc_formation_volume_factor]
  rw [oil_sol_at_or_above_bp api gas_sg p pb t h]
  by_cases hc : pb < p
  · rw [if_pos hc]
    congr 1
    unfold oil_compressibility_val
    ring
  · rw [if_neg hc]
    have hpe : p = pb := le_antisymm (not_lt.mp hc) h
    rw [hpe, sub_self, mul_zero, zero_div, Real.exp_zero, mul_one]

/-- Claim C9 (amended): with a positive compressibility numerator (the
physically intended regime, since `c = N/((P+14.7)·10⁵)`), the composed oil
formation volume factor above the bubble point equals the saturated
bubble-point value times `exp(c·(Pb − P))` and is strictly decreasing in
pressure on `[Pb, ∞)`.  Without that hypothesis the monotonicity fails, see
`oil_fvf_not_decreasing_counterexample`. -/
theorem oil_fvf_decreasing_above_bp (api gas_sg t pb p1 p2 : ℝ)
    (hg : 0 < gas_sg) (ht : 0 ≤ t) (hpb : 0 ≤ pb) (h1 : pb ≤ p1) (h12 : p1 < p2)
    (hN : 0 < oil_comp_numerator api gas_sg t pb) :
    (pb < p2 → oil_fvf_composed api gas_sg t pb p2 =
      oil_fvf_saturated api gas_sg t (oil_calc_gas_solubility api gas_sg pb pb t) *
        Real.exp (oil_compressibility_val api gas_sg t pb p2 * (pb - p2))) ∧
    oil_fvf_composed api gas_sg t pb p2 < oil_fvf_composed api gas_sg t pb p1 := by
  have hp2 : pb ≤ p2 := h1.trans h12.le
  constructor
  · intro _
    rw [oil_fvf_composed_eq api gas_sg t pb p2 hp2]
    congr 1
    congr 1
    unfold oil_compressibility_val
    ring
  · rw [oil_fvf_composed_eq api gas_sg t pb p1 h1,
        oil_fvf_composed_eq api gas_sg t pb p2 hp2]
    have hB : 0 < oil_fvf_saturated api gas_sg t
        (oil_calc_gas_solubility api gas_sg pb pb t) :=
      oil_fvf_saturated_pos api gas_sg t _ (oil_sol_bp_nonneg api gas_sg pb t hg.le hpb) ht
    apply mul_lt_mul_of_pos_left _ hB
    apply Real.exp_lt_exp.mpr
    have hd1 : (0:ℝ) < (p1 + 14.7) * 10 ^ 5 := mul_pos (by linarith) (by positivity)
    have hd2 : (0:ℝ) < (p2 + 14.7) * 10 ^ 5 := mul_pos (by linarith) (by positivity)
    rw [div_lt_div_iff hd2 hd1]
    have hkey : 0 < oil_comp_numerator api gas_sg t pb * ((pb + 14.7) * (p2 - p1)) := by
      apply mul_pos hN
      apply mul_pos (by linarith) (by linarith)
    nlinarith [hkey]

/-- Witness for C9's amended theorem at the spec's reference fluid
(API 30, gas gravity 0.65, 175 °F, bubble point 0), pressures 0 < 1. -/
theorem oil_fvf_decreasing_above_bp_witness :
    oil_fvf_composed 30 0.65 175 0 1 < oil_fvf_composed 30 0.65 175 0 0 := by
  have hsol : 0 ≤ oil_calc_gas_solubility 30 0.65 0 0 175 :=
    oil_sol_bp_nonneg 30 0.65 0 175 (by norm_num) le_rfl
  have hN : 0 < oil_comp_numerator 30 0.65 175 0 := by
    unfold oil_comp_numerator
    nlinarith [hsol]
  exact (oil_fvf_decreasing_above_bp 30 0.65 175 0 0 1 (by norm_num) (by norm_num)
    le_rfl le_rfl (by norm_num) hN).2

/-- Counterexample for C9 as originally stated: for API gravity 0, gas
gravity 1.2 and temperature 0 (bubble point 0), the compressibility numerator
is negative, so the composed FVF strictly INCREASES from pressure 0 to
pressure 100 — `Bo(P2) < Bo(P1)` fails at `Pb = 0 ≤ P1 = 0 < P2 = 100`. -/
theorem oil_fvf_not_decreasing_counterexample :
    oil_fvf_composed 0 1.2 0 0 0 < oil_fvf_composed 0 1.2 0 0 100 := by
  have hsol_nonneg : 0 ≤ oil_calc_gas_solubility 0 1.2 0 0 0 :=
    oil_sol_bp_nonneg 0 1.2 0 0 (by norm_num) le_rfl
  have hsol_le : oil_calc_gas_solubility 0 1.2 0 0 0 ≤ 5.88 := by
    unfold oil_calc_gas_solubility oil_gas_solubility_raw
    rw [if_neg (lt_irrefl (0:ℝ))]
    have he : (0.0125 * (0:ℝ) - 0.00091 * 0) = 0 := by norm_num
    rw [he, Real.rpow_zero, mul_one]
    have hb1 : (1:ℝ) ≤ (0 + 14.7) / 18.2 + 1.4 := by norm_num
    have h2 : ((0:ℝ) + 14.7) / 18.2 + 1.4 ≤ 2.21 := by norm_num
    have hle : ((0 + 14.7) / 18.2 + 1.4 : ℝ) ^ (1.2048 : ℝ) ≤
        ((0 + 14.7) / 18.2 + 1.4 : ℝ) ^ (2 : ℝ) :=
      Real.rpow_le_rpow_of_exponent_le hb1 (by norm_num)
    have h2' : ((0 + 14.7) / 18.2 + 1.4 : ℝ) ^ (2 : ℝ) ≤ 4.9 := by
      rw [show ((2:ℝ) = ((2:ℕ):ℝ)) by norm_num, Real.rpow_natCast]
      nlinarith [h2, hb1]
    nlinarith [hle, h2']
  have hN : oil_comp_numerator 0 1.2 0 0 < 0 := by
    unfold oil_comp_numerator
    nlinarith [hsol_le]
  have hB : 0 < oil_fvf_saturated 0 1.2 0 (oil_calc_gas_solubility 0 1.2 0 0 0) :=
    oil_fvf_saturated_pos 0 1.2 0 _ hsol_nonneg le_rfl
  rw [oil_fvf_composed_eq 0 1.2 0 0 0 le_rfl,
      oil_fvf_composed_eq 0 1.2 0 0 100 (by norm_num)]
  apply mul_lt_mul_of_pos_left _ hB
  apply Real.exp_lt_exp.mpr
  rw [sub_self, mul_zero, zero_div]
  apply div_pos (by nlinarith [hN]) (by norm_num)

/-- Claim C10: with a positive flow rate, water cut in [0, 1], positive
formation volume factors, a nonnegative free gas-liquid ratio and a positive
tubing diameter, `update_conditions` succeeds and the derived liquid and
mixture superficial velocities are strictly positive (so the two
`no_slip_fraction` divisions have nonzero denominators); with a zero flow
rate both denominators vanish and the call fails with a division-by-zero
error instead of returning a mixture state. -/
theorem mixture_update_no_slip_denominators
    (wc glrp oil_fvf water_fvf gas_fvf rso rsw od wd os ws ov2 wv2 gd gv2 p pb d q : ℝ)
    (hq : 0 < q) (hwc0 : 0 ≤ wc) (hwc1 : wc ≤ 1) (hBo : 0 < oil_fvf)
    (hBw : 0 < water_fvf) (hBg : 0 < gas_fvf)
    (hfglr : 0 ≤ free_gas_liquid_ratio p pb rso rsw wc glrp) (hd : 0 < d) :
    (∀ st, mixture_update_conditions wc glrp oil_fvf water_fvf gas_fvf rso rsw
        od wd os ws ov2 wv2 gd gv2 p pb d q = some st →
      0 < st.liquid_velocity ∧ 0 < st.mixture_velocity) ∧
    mixture_update_conditions wc glrp oil_fvf water_fvf gas_fvf rso rsw
        od wd os ws ov2 wv2 gd gv2 p pb d q ≠ none ∧
    mixture_update_conditions wc glrp oil_fvf water_fvf gas_fvf rso rsw
        od wd os ws ov2 wv2 gd gv2 p pb d 0 = none := by
  have hd' : d ≠ 0 := ne_of_gt hd
  have hA : (0:ℝ) < Real.pi * (d / 12) ^ 2 :=
    mul_pos Real.pi_pos (pow_pos (by linarith) 2)
  have hov : 0 ≤ 4 * in_situ_flow_rate q oil_fvf (1 - wc) / (Real.pi * (d / 12) ^ 2) := by
    apply div_nonneg _ hA.le
    unfold in_situ_flow_rate
    have : 0 ≤ 1 - wc := by linarith
    positivity
  have hwv : 0 ≤ 4 * in_situ_flow_rate q water_fvf wc / (Real.pi * (d / 12) ^ 2) := by
    apply div_nonneg _ hA.le
    unfold in_situ_flow_rate
    positivity
  have hgv : 0 ≤ 4 * in_situ_flow_rate q gas_fvf
      (free_gas_liquid_ratio p pb rso rsw wc glrp) / (Real.pi * (d / 12) ^ 2) := by
    apply div_nonneg _ hA.le
    unfold in_situ_flow_rate
    positivity
  have hcomb : 0 < (1 - wc) * oil_fvf + wc * water_fvf := by
    rcases eq_or_lt_of_le hwc1 with h | h
    · rw [← h]
      nlinarith
    · have h1 : 0 < 1 - wc := by linarith
      exact add_pos_of_pos_of_nonneg (mul_pos h1 hBo) (mul_nonneg hwc0 hBw.le)
  have hlv : 0 < 4 * in_situ_flow_rate q oil_fvf (1 - wc) / (Real.pi * (d / 12) ^ 2) +
      4 * in_situ_flow_rate q water_fvf wc / (Real.pi * (d / 12) ^ 2) := by
    have heq : 4 * in_situ_flow_rate q oil_fvf (1 - wc) / (Real.pi * (d / 12) ^ 2) +
        4 * in_situ_flow_rate q water_fvf wc / (Real.pi * (d / 12) ^ 2) =
        (4 * q * 0.000064984 / (Real.pi * (d / 12) ^ 2)) *
          ((1 - wc) * oil_fvf + wc * water_fvf) := by
      unfold in_situ_flow_rate
      ring
    rw [heq]
    exact mul_pos (div_pos (by positivity) hA) hcomb
  have hmv : 0 < 4 * in_situ_flow_rate q gas_fvf
      (free_gas_liquid_ratio p pb rso rsw wc glrp) / (Real.pi * (d / 12) ^ 2) +
      (4 * in_situ_flow_rate q oil_fvf (1 - wc) / (Real.pi * (d / 12) ^ 2) +
       4 * in_situ_flow_rate q water_fvf wc / (Real.pi * (d / 12) ^ 2)) :=
    add_pos_of_nonneg_of_pos hgv hlv
  refine ⟨?_, ?_, ?_⟩
  · intro st hst
    simp only [mixture_update_conditions, superficial_velocity, no_slip_fraction,
      if_neg hd', Option.some_bind, if_neg hmv.ne', if_neg hlv.ne',
      Option.map_some', Option.some.injEq] at hst
    rw [← hst]
    exact ⟨hlv, hmv⟩
  · simp only [mixture_update_conditions, superficial_velocity, no_slip_fraction,
      if_neg hd', Option.some_bind, if_neg hmv.ne', if_neg hlv.ne', Option.map_some']
    exact Option.some_ne_none _
  · simp only [mixture_update_conditions, superficial_velocity, no_slip_fraction,
      if_neg hd', Option.some_bind]
    have hz : ∀ fvf frac : ℝ, 4 * in_situ_flow_rate 0 fvf frac /
        (Real.pi * (d / 12) ^ 2) = 0 := by
      intro fvf frac
      unfold in_situ_flow_rate
      ring
    rw [hz, hz, hz]
    norm_num

/-- Witness for C10: water cut 0, unit FVFs, saturated conditions
(`p = pb = 0`, free GLR 0), diameter 12, flow rate 1 versus flow rate 0. -/
theorem mixture_update_no_slip_denominators_witness :
    mixture_update_conditions 0 0 1 1 1 0 0 0 0 0 0 0 0 0 0 0 0 12 1 ≠ none ∧
    mixture_update_conditions 0 0 1 1 1 0 0 0 0 0 0 0 0 0 0 0 0 12 0 = none := by
  have h := mixture_update_no_slip_denominators 0 0 1 1 1 0 0 0 0 0 0 0 0 0 0 0 0 12 1
    (by norm_num) le_rfl (by norm_num) (by norm_num) (by norm_num) (by norm_num)
    (by norm_num [free_gas_liquid_ratio]) (by norm_num)
  exact ⟨h.2.1, h.2.2⟩
